import Mathlib

/-!
Verification development for the static-site builder in `scripts/build_site.py`.

Strings are modelled as `List Char` (named `Str` below); Python string
operations (`rstrip`, `strip`, `split`, `splitlines`, `html.escape`,
`re.sub` with the non-greedy patterns used by the script) are translated
into executable Lean functions on `Str`.  The two regex substitutions are
implemented with an explicit fuel argument equal to the input length so
that they are structurally recursive and reduce by evaluation; one fuel
unit is spent per scanned character, so fuel equal to the string length
is never exhausted.
-/

set_option maxRecDepth 100000

abbrev Str := List Char

/-- Whitespace set of Python `str.strip` / `str.rstrip` (`str.isspace`). -/
def pyIsSpace (c : Char) : Bool :=
  c = ' ' || c = '\t' || c = '\n' || c = '\r' || c = Char.ofNat 11 || c = Char.ofNat 12 ||
  c = Char.ofNat 28 || c = Char.ofNat 29 || c = Char.ofNat 30 || c = Char.ofNat 31 ||
  c = Char.ofNat 133 || c = Char.ofNat 160 || c = Char.ofNat 5760 ||
  (Char.ofNat 8192 ≤ c && c ≤ Char.ofNat 8202) || c = Char.ofNat 8232 ||
  c = Char.ofNat 8233 || c = Char.ofNat 8239 || c = Char.ofNat 8287 || c = Char.ofNat 12288

/-- Drop the leading characters satisfying `p` (Python `lstrip`-style). -/
def lstripBy (p : Char → Bool) (s : Str) : Str := s.dropWhile p

/-- Drop the trailing characters satisfying `p` (Python `rstrip`-style). -/
def rstripBy (p : Char → Bool) (s : Str) : Str := (s.reverse.dropWhile p).reverse

/-- Python `str.rstrip()` (used by `md_line_to_html`, line 17). -/
def rstrip (s : Str) : Str := rstripBy pyIsSpace s

/-- Python `str.strip()` with no argument. -/
def pyStrip (s : Str) : Str := lstripBy pyIsSpace (rstripBy pyIsSpace s)

/-- Python `value.strip(chr 34)`: removes all leading and trailing
double-quote characters (used by `parse_frontmatter`, line 101). -/
def stripQuotes (s : Str) : Str := lstripBy (fun c => c = '"') (rstripBy (fun c => c = '"') s)

/-- Per-character translation of Python `html.escape` (quote=True). -/
def escChar (c : Char) : Str :=
  if c = '&' then "&amp;".data
  else if c = '<' then "&lt;".data
  else if c = '>' then "&gt;".data
  else if c = '"' then "&quot;".data
  else if c = Char.ofNat 39 then "&#x27;".data
  else [c]

/-- Python `html.escape(s)` with default `quote=True`. -/
def html_escape (s : Str) : Str := (s.map escChar).flatten

/-- Python substring containment (`pat in s`). -/
def hasSub (pat : Str) : Str → Bool
  | [] => pat.isEmpty
  | c :: t => pat.isPrefixOf (c :: t) || hasSub pat t

/-- Scan for the earliest occurrence of a double star: if
`t = a ++ &#42;&#42; ++ b` with no double star starting inside `a`, return
`some (a, b)`.  This is how the non-greedy `(.+?)` of the bold pattern
finds the closing delimiter after its mandatory first character. -/
def findClose : Str → Option (Str × Str)
  | [] => none
  | '*' :: '*' :: t => some ([], t)
  | c :: t => (findClose t).map fun p => (c :: p.1, p.2)

/-- One step of `re.sub` for the bold pattern: fuel-indexed scanner.
Fuel decreases by at least one per step and the scanned string shrinks at
least as fast, so fuel equal to the initial length is never exhausted. -/
def boldSubF : Nat → Str → Str
  | 0, s => s
  | _ + 1, [] => []
  | n + 1, '*' :: '*' :: c :: t =>
    (match findClose t with
     | some (a, b) =>
       "<strong>".data ++ (c :: a) ++ "</strong>".data ++ boldSubF n b
     | none => '*' :: boldSubF n ('*' :: c :: t))
  | n + 1, c :: t => c :: boldSubF n t

/-- Python `re.sub` of the bold pattern (build_site.py line 31):
double star, non-greedy nonempty body, double star, replaced by a
strong element, scanning left to right over non-overlapping matches. -/
def boldSub (s : Str) : Str := boldSubF s.length s

/-- Split at the first occurrence of the character `ch`:
`findCloseCh ch t = some (a, b)` iff `t = a ++ ch :: b` with `ch ∉ a`. -/
def findCloseCh (ch : Char) : Str → Option (Str × Str)
  | [] => none
  | c :: t =>
    if c = ch then some ([], t)
    else (findCloseCh ch t).map fun p => (c :: p.1, p.2)

/-- Backtracking search for the remainder of a link match.  The input is
the text following the opening bracket and the mandatory first label
character.  Scanning left to right for a close-bracket/open-paren pair,
at each candidate the url part needs at least one character followed by a
later close paren; on failure the label is extended to the next
candidate pair, mirroring the regex engine backtracking for the pattern
of line 32. Returns (label rest, url, remainder). -/
def findLinkRest : Str → Option (Str × Str × Str)
  | [] => none
  | ']' :: '(' :: t =>
    (match t with
     | [] => none
     | c2 :: t2 =>
       match findCloseCh ')' t2 with
       | some (a, b) => some ([], c2 :: a, b)
       | none =>
         (findLinkRest ('(' :: t)).map fun p => (']' :: p.1, p.2.1, p.2.2))
  | c :: t => (findLinkRest t).map fun p => (c :: p.1, p.2.1, p.2.2)

/-- Fuel-indexed scanner for the link substitution (fuel as in `boldSubF`). -/
def linkSubF : Nat → Str → Str
  | 0, s => s
  | _ + 1, [] => []
  | n + 1, '[' :: c :: t =>
    (match findLinkRest t with
     | some (r1, r2, rest) =>
       "<a class=\"text-cyan-300 underline\" href=\"".data ++ r2 ++ "\">".data ++
         (c :: r1) ++ "</a>".data ++ linkSubF n rest
     | none => '[' :: linkSubF n (c :: t))
  | n + 1, c :: t => c :: linkSubF n t

/-- Python `re.sub` of the link pattern (build_site.py line 32). -/
def linkSub (s : Str) : Str := linkSubF s.length s

/-- Alt text of an image line: the characters strictly between the
opening `![` and the first close bracket of the line
(`line[2:line.index(chr 93)]`, line 22). -/
def imgAlt (line : Str) : Str := (line.drop 2).takeWhile (fun c => c != ']')

/-- Src of an image line: the characters strictly between the first open
paren of the line and the final character
(`line[line.index(chr 40) + 1 : -1]`, line 23). -/
def imgSrc (line : Str) : Str := ((line.dropWhile (fun c => c != '(')).drop 1).dropLast

/-- The figure fragment emitted for an image line (lines 24-28),
embedding the escaped src and the escaped alt (twice: alt text and
caption). -/
def figureHtml (src alt : Str) : Str :=
  "<figure class=\"my-6 overflow-hidden rounded-xl border border-slate-700/70\"><img src=\"".data ++
    html_escape src ++ "\" alt=\"".data ++ html_escape alt ++
    "\" class=\"w-full\" /><figcaption class=\"px-4 py-2 text-sm text-slate-400\">".data ++
    html_escape alt ++ "</figcaption></figure>".data

/-- `re.match` of the ordered-item pattern (one or more digits, a dot,
one or more whitespace) against the start of `s`. -/
def is_ol_line (s : Str) : Bool :=
  let ds := s.takeWhile Char.isDigit
  !ds.isEmpty &&
    (match s.drop ds.length with
     | '.' :: c :: _ => pyIsSpace c
     | _ => false)

/-- `re.sub` of the ordered-item pattern with empty replacement (line 43):
if the string starts with digits, a dot and whitespace, remove that
prefix (the whitespace run greedily), else leave the string unchanged. -/
def stripOlMark (s : Str) : Str :=
  if is_ol_line s then ((s.dropWhile Char.isDigit).drop 1).dropWhile pyIsSpace else s

/-- Body of the line renderer applied to the already right-stripped
line; the local binding `escaped` of the source is inlined at its three
use sites (same value, no observable difference). -/
def md_line_core (line : Str) : Str :=
  if line.isEmpty then []
  else if "![".data.isPrefixOf line && hasSub "](".data line && [')'].isSuffixOf line then
    figureHtml (imgSrc line) (imgAlt line)
  else if "### ".data.isPrefixOf line then "<h3>".data ++ html_escape (line.drop 4) ++ "</h3>".data
  else if "## ".data.isPrefixOf line then "<h2>".data ++ html_escape (line.drop 3) ++ "</h2>".data
  else if "# ".data.isPrefixOf line then "<h1>".data ++ html_escape (line.drop 2) ++ "</h1>".data
  else if "- ".data.isPrefixOf line then
    "<li>".data ++ (linkSub (boldSub (html_escape line))).drop 2 ++ "</li>".data
  else if is_ol_line line then
    "<li>".data ++ stripOlMark (linkSub (boldSub (html_escape line))) ++ "</li>".data
  else "<p>".data ++ linkSub (boldSub (html_escape line)) ++ "</p>".data

/-- Translation of `md_line_to_html` (build_site.py lines 16-45). -/
def md_line_to_html (line0 : Str) : Str := md_line_core (rstrip line0)

/-- `line.startswith (dash space)` of the block assembler (line 55). -/
def is_ul_line (l : Str) : Bool := "- ".data.isPrefixOf l

/-- The container tags emitted before a line's own fragment by the loop
body of `markdown_to_html` (lines 58-75), together with the updated
in-unordered-list / in-ordered-list state.  The four sequential `if`
statements of the source are threaded in order. -/
def mdStep (inUl inOl : Bool) (l : Str) : List Str × Bool × Bool :=
  let isU := is_ul_line l
  let isO := is_ol_line l
  let s1 : List Str × Bool × Bool :=
    if isU && !inUl then ((if inOl then ["</ol>".data] else []) ++ ["<ul>".data], true, false)
    else ([], inUl, inOl)
  let s2 : List Str × Bool × Bool :=
    if isO && !s1.2.2 then (s1.1 ++ (if s1.2.1 then ["</ul>".data] else []) ++ ["<ol>".data], false, true)
    else s1
  let s3 : List Str × Bool × Bool :=
    if !isU && s2.2.1 then (s2.1 ++ ["</ul>".data], false, s2.2.2) else s2
  if !isO && s3.2.2 then (s3.1 ++ ["</ol>".data], s3.2.1, false) else s3

/-- The loop of `markdown_to_html` (lines 54-84) over a sequence of
lines, producing the list of output fragments, starting from the given
list state and closing any still-open list at the end. -/
def mdLines : Bool → Bool → List Str → List Str
  | inUl, inOl, [] => (if inUl then ["</ul>".data] else []) ++ (if inOl then ["</ol>".data] else [])
  | inUl, inOl, l :: ls =>
    (mdStep inUl inOl l).1 ++
      (if (md_line_to_html l).isEmpty then [] else [md_line_to_html l]) ++
      mdLines (mdStep inUl inOl l).2.1 (mdStep inUl inOl l).2.2 ls

/-- True for the characters on which Python `str.splitlines` breaks. -/
def isLineBreak (c : Char) : Bool :=
  c = '\n' || c = '\r' || c = Char.ofNat 11 || c = Char.ofNat 12 || c = Char.ofNat 28 ||
  c = Char.ofNat 29 || c = Char.ofNat 30 || c = Char.ofNat 133 || c = Char.ofNat 8232 ||
  c = Char.ofNat 8233

/-- Worker for `splitlines`; `acc` holds the current line reversed. -/
def splitlinesAux (acc : Str) : Str → List Str
  | [] => [acc.reverse]
  | '\r' :: '\n' :: t => acc.reverse :: (if t.isEmpty then [] else splitlinesAux [] t)
  | c :: t =>
    if isLineBreak c then acc.reverse :: (if t.isEmpty then [] else splitlinesAux [] t)
    else splitlinesAux (c :: acc) t

/-- Python `str.splitlines()`: no trailing empty line for a trailing
terminator, carriage-return/line-feed counted as one break. -/
def splitlines (s : Str) : List Str := if s.isEmpty then [] else splitlinesAux [] s

/-- Translation of `markdown_to_html` (lines 48-86): split into lines,
run the list-grouping loop, join the fragments with newlines. -/
def markdown_to_html (raw : Str) : Str :=
  (List.intersperse "\n".data (mdLines false false (splitlines raw))).flatten

/-- Split at the first occurrence of the separator `sep` (assumed
nonempty): `some (a, b)` when `s = a ++ sep ++ b` and `sep` starts at no
earlier position. -/
def splitFirst (sep : Str) : Str → Option (Str × Str)
  | [] => none
  | c :: t =>
    if sep.isPrefixOf (c :: t) then some ([], (c :: t).drop sep.length)
    else (splitFirst sep t).map fun p => (c :: p.1, p.2)

/-- Python `s.split(sep, maxsplit)` for nonempty `sep`. -/
def pySplit (sep : Str) : Nat → Str → List Str
  | 0, s => [s]
  | m + 1, s =>
    match splitFirst sep s with
    | none => [s]
    | some (a, b) => a :: pySplit sep m b

/-- Python dict assignment `m[k] = v` on an association list with unique
keys: replace the value in place if `k` is present, else append. -/
def dictSet : List (Str × Str) → Str → Str → List (Str × Str)
  | [], k, v => [(k, v)]
  | (k', v') :: t, k, v => if k' = k then (k, v) :: t else (k', v') :: dictSet t k v

/-- One frontmatter metadata line (lines 99-101): if the line contains a
colon, split at the first colon, strip both sides, strip surrounding
double quotes from the value and assign; otherwise ignore the line. -/
def fmStep (m : List (Str × Str)) (line : Str) : List (Str × Str) :=
  match splitFirst [':'] line with
  | some (k, v) => dictSet m (pyStrip k) (stripQuotes (pyStrip v))
  | none => m

/-- The metadata mapping built from the raw frontmatter block (lines 97-101). -/
def parseMeta (metaRaw : Str) : List (Str × Str) := (splitlines metaRaw).foldl fmStep []

/-- Translation of `parse_frontmatter` (lines 89-102).  The triple-dash
delimiter is written as a computed list to keep source lines short. -/
def fmDelim : Str := ['-', '-', '-']

def parse_frontmatter (raw : Str) : List (Str × Str) × Str :=
  if fmDelim.isPrefixOf raw then
    let parts := pySplit fmDelim 2 raw
    if parts.length < 3 then ([], raw)
    else (parseMeta (parts.getD 1 []), pyStrip (parts.getD 2 []))
  else ([], raw)

/-- A Post record assembled by `build` (lines 138-146). -/
structure Post where
  slug : Str
  title : Str
  summary : Str
  date : Str
  html : Str
deriving DecidableEq, Repr

/-- Assemble the Post record of one source document (stem of the file
name plus raw text), lines 137-146.  The Python `or` in the title field
falls back on the stem when the frontmatter title is missing or empty;
`dict.get` with a default falls back only when the key is missing. -/
def mkPost (stem raw : Str) : Post :=
  let pr := parse_frontmatter raw
  { slug := stem
  , title := match pr.1.lookup "title".data with
             | some t => if t.isEmpty then stem else t
             | none => stem
  , summary := (pr.1.lookup "summary".data).getD "Generated AI blog post".data
  , date := (pr.1.lookup "date".data).getD []
  , html := markdown_to_html pr.2 }

/-- Code-point lexicographic strict order on `Str`, as Python compares
the globbed path names. -/
def strLt : Str → Str → Bool
  | [], [] => false
  | [], _ :: _ => true
  | _ :: _, [] => false
  | a :: as, b :: bs => if a = b then strLt as bs else decide (a < b)

/-- The name a post document is sorted by: its stem plus the markdown
extension (`sorted(POSTS_DIR.glob(star.md), reverse=True)`, line 136). -/
def fileKey (q : Str × Str) : Str := q.1 ++ ".md".data

def insertDesc (x : Str × Str) : List (Str × Str) → List (Str × Str)
  | [] => [x]
  | y :: t => if strLt (fileKey y) (fileKey x) then x :: y :: t else y :: insertDesc x t

/-- The post documents sorted by file name descending. -/
def sortDescByName (l : List (Str × Str)) : List (Str × Str) := l.foldr insertDesc []

/-- The Post records of a build, in display order (lines 135-146). -/
def buildPosts (inputs : List (Str × Str)) : List Post :=
  (sortDescByName inputs).map fun q => mkPost q.1 q.2

/-- The link target of a post's summary card (line 149): built from the
raw slug, not the sanitized one. -/
def cardHref (slug : Str) : Str := "/blog/".data ++ slug ++ ".html".data

def card1 : Str := "<a href=\"".data

def card2 : Str := "\" class=\"group block rounded-2xl border border-slate-700/60 bg-slate-900/70 p-6 transition hover:-translate-y-0.5 hover:border-cyan-400/70 hover:shadow-[0_0_24px_rgba(34,211,238,0.2)]\"><p class=\"text-xs uppercase tracking-wider text-cyan-300/80\">".data

def card3 : Str := "</p><h3 class=\"mt-2 text-xl font-semibold text-white group-hover:text-cyan-100\">".data

def card4 : Str := "</h3><p class=\"mt-3 text-sm leading-6 text-slate-300\">".data

def card5 : Str := "</p><p class=\"mt-5 text-sm text-cyan-300\">Read article →</p></a>".data

/-- One summary card (lines 148-156). -/
def cardHtml (p : Post) : Str :=
  card1 ++ cardHref p.slug ++ card2 ++ (if p.date.isEmpty then "Draft".data else p.date) ++
    card3 ++ html_escape p.title ++ card4 ++ html_escape p.summary ++ card5

/-- The placeholder shown when there are no cards (line 159). -/
def placeholderHtml : Str := "<p class=\"rounded-xl border border-dashed border-slate-700 p-6 text-slate-400\">No posts yet. Add a draft to <code>blog_drafts/</code> and run the workflow.</p>".data

def shell1 : Str := "<!doctype html>\n<html lang=\"en\">\n<head>\n  <meta charset=\"UTF-8\" />\n  <meta name=\"viewport\" content=\"width=device-width, initial-scale=1.0\" />\n  <title>".data

def shell2 : Str := "</title>\n  <script src=\"https://cdn.tailwindcss.com\"></script>\n  <style>\n    .glass \x7b backdrop-filter: blur(8px); \x7d\n    .prose h1 \x7b font-size: 2rem; font-weight: 800; margin-top: 1rem; margin-bottom: .75rem; \x7d\n    .prose h2 \x7b font-size: 1.4rem; font-weight: 700; margin-top: 1.2rem; margin-bottom: .6rem; \x7d\n    .prose h3 \x7b font-size: 1.1rem; font-weight: 700; margin-top: 1rem; margin-bottom: .4rem; \x7d\n    .prose p \x7b color: #d1d5db; line-height: 1.75; margin: .65rem 0; \x7d\n    .prose ul, .prose ol \x7b margin: .8rem 0 .8rem 1.1rem; color: #d1d5db; \x7d\n    .prose li \x7b margin: .2rem 0; \x7d\n  </style>\n</head>\n<body class=\"min-h-screen bg-slate-950 text-slate-100\">".data

def shell3 : Str := "</body>\n</html>".data

/-- Translation of `shell_html` (lines 105-124). -/
def shell_html (title body : Str) : Str := shell1 ++ html_escape title ++ shell2 ++ body ++ shell3

def idx1 : Str := "\n    <div class=\"pointer-events-none absolute inset-0 -z-10 bg-[radial-gradient(circle_at_20%_20%,rgba(56,189,248,0.15),transparent_34%),radial-gradient(circle_at_80%_0%,rgba(168,85,247,0.12),transparent_26%)]\"></div>\n    <main class=\"mx-auto max-w-6xl p-6 md:p-10\">\n      <section class=\"glass overflow-hidden rounded-3xl border border-slate-700/70 bg-slate-900/65 p-8 shadow-2xl\">\n        <p class=\"inline-flex rounded-full border border-cyan-400/40 bg-cyan-400/10 px-3 py-1 text-xs font-medium tracking-wide text-cyan-300\">Open Source AI Blog Generator</p>\n        <h1 class=\"mt-4 text-4xl font-black tracking-tight\">Ship AI-written blogs from your raw analysis notes.</h1>\n        <p class=\"mt-3 max-w-3xl text-slate-300\">Drop a markdown/text draft, trigger GitHub Actions, and auto-publish polished posts to a Vercel-ready static site.</p>\n        <div class=\"prose mt-8 max-w-none\">".data

def idx2 : Str := "</div>\n      </section>\n\n      <section class=\"mt-10\">\n        <div class=\"mb-4 flex items-center justify-between\">\n          <h2 class=\"text-2xl font-bold\">Published Posts</h2>\n          <span class=\"rounded-full border border-slate-700 px-3 py-1 text-xs text-slate-400\">".data

def idx3 : Str := " total</span>\n        </div>\n        <div class=\"grid gap-4 md:grid-cols-2\">".data

def idx4 : Str := "</div>\n      </section>\n    </main>\n    ".data

/-- The body of the home page (lines 161-179). -/
def indexBody (profileHtml : Str) (n : Nat) (cards : Str) : Str :=
  idx1 ++ profileHtml ++ idx2 ++ (Nat.repr n).data ++ idx3 ++ cards ++ idx4

/-- The cards section: one card per Post, or the placeholder when the
joined card string is empty (lines 148-159). -/
def buildCards (records : List Post) : Str :=
  if ((records.map cardHtml).flatten).isEmpty then placeholderHtml
  else (records.map cardHtml).flatten

/-- The complete home page document of a build (lines 132-180). -/
def buildIndexHtml (profile : Option Str) (posts : List (Str × Str)) : Str :=
  shell_html "AI Blog Generator".data
    (indexBody (markdown_to_html (profile.getD "# Your Name".data)) (buildPosts posts).length
      (buildCards (buildPosts posts)))

def pp1 : Str := "\n        <div class=\"pointer-events-none absolute inset-0 -z-10 bg-[radial-gradient(circle_at_0%_10%,rgba(56,189,248,0.10),transparent_38%),radial-gradient(circle_at_100%_0%,rgba(168,85,247,0.10),transparent_30%)]\"></div>\n        <main class=\"mx-auto max-w-3xl p-6 md:p-10\">\n          <a class=\"inline-flex rounded-full border border-slate-700 px-3 py-1 text-sm text-cyan-300 hover:border-cyan-400\" href=\"/index.html\">← Back to home</a>\n          <article class=\"prose mt-6 rounded-3xl border border-slate-700/60 bg-slate-900/75 p-8 shadow-2xl\">\n            <h1>".data

def pp2 : Str := "</h1>\n            <p class=\"text-slate-400\">".data

def pp3 : Str := "</p>\n            ".data

def pp4 : Str := "\n          </article>\n        </main>\n        ".data

/-- The body of one post page (lines 183-193). -/
def postPageBody (p : Post) : Str :=
  pp1 ++ html_escape p.title ++ pp2 ++ p.date ++ pp3 ++ p.html ++ pp4

/-- Characters kept by the slug sanitization of line 194. -/
def isSlugChar (c : Char) : Bool :=
  ('a' ≤ c && c ≤ 'z') || ('A' ≤ c && c ≤ 'Z') || ('0' ≤ c && c ≤ '9') || c = '_' || c = '-'

/-- `re.sub` removing every character outside the safe set (line 194). -/
def sanitizeSlug (s : Str) : Str := s.filter isSlugChar

/-- The observable effect of a build: directories created (in order) and
files written, each as a path paired with its full contents. -/
structure BuildOut where
  dirs : List Str
  files : List (Str × Str)

/-- Translation of `build` (lines 127-195) as a pure function from the
profile document (none when the configured path is absent) and the
globbed post documents (stem, raw text) to the build's effects. -/
def build (profile : Option Str) (posts : List (Str × Str)) : BuildOut :=
  { dirs := ["site".data, "site/blog".data]
  , files := ("site/index.html".data, buildIndexHtml profile posts) ::
      (buildPosts posts).map fun p =>
        ("site/blog/".data ++ sanitizeSlug p.slug ++ ".html".data,
         shell_html p.title (postPageBody p)) }

lemma takeWhile_append_cons (p : Char → Bool) :
    ∀ (a : Str) (c : Char) (b : Str), (∀ x ∈ a, p x = true) → p c = false →
      (a ++ c :: b).takeWhile p = a := by
  intro a
  induction a with
  | nil => intro c b _ hc; simp [List.takeWhile_cons, hc]
  | cons x t ih =>
    intro c b ha hc
    have hx : p x = true := ha x (by simp)
    simp only [List.cons_append, List.takeWhile_cons, hx, if_true]
    rw [ih c b (fun y hy => ha y (by simp [hy])) hc]

lemma dropWhile_append_cons (p : Char → Bool) :
    ∀ (a : Str) (c : Char) (b : Str), (∀ x ∈ a, p x = true) → p c = false →
      (a ++ c :: b).dropWhile p = c :: b := by
  intro a
  induction a with
  | nil => intro c b _ hc; simp [List.dropWhile_cons, hc]
  | cons x t ih =>
    intro c b ha hc
    have hx : p x = true := ha x (by simp)
    simp only [List.cons_append, List.dropWhile_cons, hx, if_true]
    exact ih c b (fun y hy => ha y (by simp [hy])) hc

/-- The image branch of the line renderer: whenever the guard of line 21
holds of the right-stripped line, the output is the figure fragment. -/
lemma md_image_eq (l : Str)
    (h1 : "![".data.isPrefixOf (rstrip l) = true)
    (h2 : hasSub "](".data (rstrip l) = true)
    (h3 : [')'].isSuffixOf (rstrip l) = true) :
    md_line_to_html l = figureHtml (imgSrc (rstrip l)) (imgAlt (rstrip l)) := by
  have hne : (rstrip l).isEmpty = false := by
    cases hr : rstrip l with
    | nil => rw [hr] at h1; exact absurd h1 (by decide)
    | cons c t => rfl
  unfold md_line_to_html md_line_core
  simp [hne, h1, h2, h3]

lemma splitFirst_colon_some : ∀ (a b : Str), ':' ∉ a →
    splitFirst [':'] (a ++ ':' :: b) = some (a, b) := by
  intro a
  induction a with
  | nil => intro b _; simp [splitFirst, List.isPrefixOf]
  | cons c t ih =>
    intro b h
    have hc : c ≠ ':' := fun hcc => h (by simp [hcc])
    have hb : ((':' : Char) == c) = false := by
      simp only [beq_eq_false_iff_ne, ne_eq]
      exact fun hcc => hc hcc.symm
    simp only [List.cons_append, splitFirst, List.isPrefixOf, hb, Bool.false_and,
      Bool.false_eq_true, if_false, List.append_eq]
    rw [ih b (fun hm => h (by simp [hm]))]
    rfl

lemma splitFirst_colon_none : ∀ l : Str, ':' ∉ l → splitFirst [':'] l = none := by
  intro l
  induction l with
  | nil => intro _; rfl
  | cons c t ih =>
    intro h
    have hc : c ≠ ':' := fun hcc => h (by simp [hcc])
    have hb : ((':' : Char) == c) = false := by
      simp only [beq_eq_false_iff_ne, ne_eq]
      exact fun hcc => hc hcc.symm
    simp only [splitFirst, List.isPrefixOf, hb, Bool.false_and, Bool.false_eq_true, if_false,
      List.append_eq]
    rw [ih (fun hm => h (by simp [hm]))]
    rfl

/-- C4: the Line Renderer escapes the whole line before the bold and
link inline transforms; the claim's scenario renders as stated, and a
literal less-than sign inside bold or link text comes out as the
entity `&lt;`. -/
theorem md_line_escape_before_spans :
    md_line_to_html "- **bold** [link](http://x)".data =
      "<li><strong>bold</strong> <a class=\"text-cyan-300 underline\" href=\"http://x\">link</a></li>".data ∧
    md_line_to_html "- **a<b** [c<d](u)".data =
      "<li><strong>a&lt;b</strong> <a class=\"text-cyan-300 underline\" href=\"u\">c&lt;d</a></li>".data := by
  exact ⟨by decide, by decide⟩

/-- C5: frontmatter round-trip on the document `---`, `key: value`,
`---`, `body` (newline-separated): metadata is the single pair
key/value and the body is exactly `body`. -/
theorem parse_frontmatter_roundtrip :
    parse_frontmatter "---\nkey: value\n---\nbody".data =
      ([("key".data, "value".data)], "body".data) := by
  decide

/-- C6: when the text does not begin with the triple-dash delimiter, or
splitting on it yields fewer than three segments, the parser returns the
empty mapping and the unchanged text.  (The embedding is a total
function, so no error is possible on this path.) -/
theorem parse_frontmatter_degrades (raw : Str)
    (h : fmDelim.isPrefixOf raw = false ∨ (pySplit fmDelim 2 raw).length < 3) :
    parse_frontmatter raw = ([], raw) := by
  unfold parse_frontmatter
  rcases h with h | h
  · simp [h]
  · by_cases hp : fmDelim.isPrefixOf raw
    · simp [hp, h]
    · simp [hp]

theorem parse_frontmatter_degrades_witness :
    parse_frontmatter "hello".data = ([], "hello".data) :=
  parse_frontmatter_degrades "hello".data (Or.inl (by decide))

lemma ipoNil (l : Str) : List.isPrefixOf [] l = true := by cases l <;> rfl

lemma ipoCons (a b : Char) (as bs : Str) :
    (a :: as).isPrefixOf (b :: bs) = ((a == b) && as.isPrefixOf bs) := rfl

/-- C3: whenever the right-stripped line passes the image check (starts
with bang-bracket, contains bracket-paren, ends with close paren) the
renderer emits the figure fragment built from the escaped src and the
escaped alt (the alt appearing both as alt text and as caption), so no
heading, list or paragraph rule applies; on the claim's example the
figure carries src `cat.png` and alt/caption `a cat`. -/
theorem md_line_image_priority :
    (∀ l : Str,
      "![".data.isPrefixOf (rstrip l) = true →
      hasSub "](".data (rstrip l) = true →
      [')'].isSuffixOf (rstrip l) = true →
      md_line_to_html l = figureHtml (imgSrc (rstrip l)) (imgAlt (rstrip l))) ∧
    md_line_to_html "![a cat](cat.png)".data = figureHtml "cat.png".data "a cat".data := by
  exact ⟨md_image_eq, by decide⟩

theorem md_line_image_priority_witness :
    md_line_to_html "![a cat](cat.png)".data =
      figureHtml (imgSrc (rstrip "![a cat](cat.png)".data))
        (imgAlt (rstrip "![a cat](cat.png)".data)) :=
  md_line_image_priority.1 "![a cat](cat.png)".data (by decide) (by decide) (by decide)

/-- C8: a line whose right-stripped form starts with a heading marker
(three, two or one hash followed by a space) renders to the matching
heading element whose content is the freshly escaped remainder of the
line, with no bold or link transform applied; in particular a bold
marker inside a heading stays literal. -/
theorem md_line_heading_fresh_escape :
    (∀ (l r : Str),
      (rstrip l = '#' :: '#' :: '#' :: ' ' :: r →
        md_line_to_html l = "<h3>".data ++ html_escape r ++ "</h3>".data) ∧
      (rstrip l = '#' :: '#' :: ' ' :: r →
        md_line_to_html l = "<h2>".data ++ html_escape r ++ "</h2>".data) ∧
      (rstrip l = '#' :: ' ' :: r →
        md_line_to_html l = "<h1>".data ++ html_escape r ++ "</h1>".data)) ∧
    md_line_to_html "# **x**".data = "<h1>**x**</h1>".data := by
  refine ⟨fun l r => ⟨fun h => ?_, fun h => ?_, fun h => ?_⟩, by decide⟩
  all_goals
    unfold md_line_to_html
    rw [h]
    unfold md_line_core
    simp [ipoCons, ipoNil]

theorem md_line_heading_fresh_escape_witness :
    md_line_to_html "# a<b".data = "<h1>".data ++ html_escape "a<b".data ++ "</h1>".data :=
  (md_line_heading_fresh_escape.1 "# a<b".data "a<b".data).2.2 (by decide)

/-- C10: on a line passing the image check, the alt is the substring
strictly between the opening bang-bracket and the first close bracket of
the line, and the src is the substring strictly between the first open
paren of the line and the final character — not a structural match of
the whole pattern.  The two closed conjuncts exhibit the consequences:
`![a](b)(c)` gives alt `a` and src `b)(c`, and `![x] y ](z)` gives alt
`x` and src `z`. -/
theorem md_line_image_extraction :
    (∀ (l a1 b1 a2 b2 : Str),
      "![".data.isPrefixOf (rstrip l) = true →
      hasSub "](".data (rstrip l) = true →
      [')'].isSuffixOf (rstrip l) = true →
      rstrip l = '!' :: '[' :: (a1 ++ ']' :: b1) →
      ']' ∉ a1 →
      rstrip l = a2 ++ '(' :: b2 →
      '(' ∉ a2 →
      md_line_to_html l = figureHtml b2.dropLast a1) ∧
    md_line_to_html "![a](b)(c)".data = figureHtml "b)(c".data "a".data ∧
    md_line_to_html "![x] y ](z)".data = figureHtml "z".data "x".data := by
  refine ⟨fun l a1 b1 a2 b2 h1 h2 h3 hd1 hm1 hd2 hm2 => ?_, by decide, by decide⟩
  rw [md_image_eq l h1 h2 h3]
  have halt : imgAlt (rstrip l) = a1 := by
    unfold imgAlt
    rw [hd1]
    simp only [List.drop_succ_cons, List.drop_zero]
    exact takeWhile_append_cons _ a1 ']' b1
      (fun x hx => by simp [bne_iff_ne]; exact fun he => hm1 (he ▸ hx)) (by decide)
  have hsrc : imgSrc (rstrip l) = b2.dropLast := by
    unfold imgSrc
    rw [hd2]
    rw [dropWhile_append_cons _ a2 '(' b2
      (fun x hx => by simp [bne_iff_ne]; exact fun he => hm2 (he ▸ hx)) (by decide)]
    rfl
  rw [halt, hsrc]

theorem md_line_image_extraction_witness :
    md_line_to_html "![a](b)(c)".data = figureHtml ("b)(c)".data.dropLast) "a".data :=
  md_line_image_extraction.1 "![a](b)(c)".data "a".data "(b)(c)".data "![a]".data "b)(c)".data
    (by decide) (by decide) (by decide) (by decide) (by decide) (by decide) (by decide)

/-- C9 (amended): a frontmatter line containing a colon is split at the
first colon; key and value are stripped of surrounding whitespace and
the value then has all leading and trailing double-quote characters
removed; a line without a colon leaves the mapping unchanged. -/
theorem fm_line_first_colon :
    (∀ (a b : Str) (m : List (Str × Str)), ':' ∉ a →
      fmStep m (a ++ ':' :: b) = dictSet m (pyStrip a) (stripQuotes (pyStrip b))) ∧
    (∀ (line : Str) (m : List (Str × Str)), ':' ∉ line → fmStep m line = m) := by
  constructor
  · intro a b m h
    unfold fmStep
    rw [splitFirst_colon_some a b h]
  · intro line m h
    unfold fmStep
    rw [splitFirst_colon_none line h]

theorem fm_line_first_colon_witness :
    fmStep [] ("k".data ++ ':' :: " \"\"v\"\"".data) =
      dictSet [] (pyStrip "k".data) (stripQuotes (pyStrip " \"\"v\"\"".data)) :=
  fm_line_first_colon.1 "k".data " \"\"v\"\"".data [] (by decide)

/-- C9 counterexample: the claim says a value with multiple surrounding
double quotes keeps the extra quote characters, which would give the
value quote-v-quote here; the parser actually strips every surrounding
quote and yields plain `v`. -/
theorem fm_value_strips_all_quotes :
    (parse_frontmatter "---\nk: \"\"v\"\"\n---\nb".data).1 = [("k".data, "v".data)] ∧
    ("v".data : Str) ≠ "\"v\"".data := by
  exact ⟨by decide, by decide⟩

/-- The four list-container tags the assembler can emit. -/
def listTag : Str → Bool
  | ['<', 'u', 'l', '>'] => true
  | ['<', '/', 'u', 'l', '>'] => true
  | ['<', 'o', 'l', '>'] => true
  | ['<', '/', 'o', 'l', '>'] => true
  | _ => false

/-- The subsequence of container tags among the output fragments. -/
def tagProj (out : List Str) : List Str := out.filter listTag

/-- Checker for well-formed container-tag streams: `none` means no
container is open, `some true` an open unordered list, `some false` an
open ordered list.  A valid stream is a concatenation of immediately
closed open/close pairs: each opened container has exactly one matching
close and containers never nest or overlap. -/
def tagOk : Option Bool → List Str → Bool
  | none, [] => true
  | some _, [] => false
  | none, f :: r =>
    if f = "<ul>".data then tagOk (some true) r
    else if f = "<ol>".data then tagOk (some false) r
    else false
  | some b, f :: r =>
    if f = (if b then "</ul>".data else "</ol>".data) then tagOk none r else false

/-- The pending-container state corresponding to the two loop booleans. -/
def pend (u o : Bool) : Option Bool := if u then some true else if o then some false else none

/-- No fragment produced by the line renderer is itself a container tag:
every nonempty fragment opens with a figure, heading, list-item or
paragraph tag. -/
lemma md_not_tag (l : Str) : listTag (md_line_to_html l) = false := by
  unfold md_line_to_html md_line_core
  repeat' split
  all_goals rfl

lemma listTag_ul : listTag "<ul>".data = true := rfl

lemma listTag_cul : listTag "</ul>".data = true := rfl

lemma listTag_ol : listTag "<ol>".data = true := rfl

lemma listTag_col : listTag "</ol>".data = true := rfl

lemma listTag_ulL : listTag ['<', 'u', 'l', '>'] = true := rfl

lemma listTag_culL : listTag ['<', '/', 'u', 'l', '>'] = true := rfl

lemma listTag_olL : listTag ['<', 'o', 'l', '>'] = true := rfl

lemma listTag_colL : listTag ['<', '/', 'o', 'l', '>'] = true := rfl

lemma filterFragOpt (l : Str) :
    List.filter listTag (if (md_line_to_html l).isEmpty then [] else [md_line_to_html l]) = [] := by
  split
  · rfl
  · simp [List.filter_cons, md_not_tag]

lemma tagOk_none_ul (r : List Str) : tagOk none ("<ul>".data :: r) = tagOk (some true) r := rfl

lemma tagOk_none_ol (r : List Str) : tagOk none ("<ol>".data :: r) = tagOk (some false) r := rfl

lemma tagOk_ul_close (r : List Str) : tagOk (some true) ("</ul>".data :: r) = tagOk none r := rfl

lemma tagOk_ol_close (r : List Str) : tagOk (some false) ("</ol>".data :: r) = tagOk none r := rfl

lemma filterFragOptE (l : Str) :
    List.filter listTag (if md_line_to_html l = [] then [] else [md_line_to_html l]) = [] := by
  split
  · rfl
  · simp [List.filter_cons, md_not_tag]

lemma tagOk_none_ulL (r : List Str) :
    tagOk none (['<', 'u', 'l', '>'] :: r) = tagOk (some true) r := rfl

lemma tagOk_none_olL (r : List Str) :
    tagOk none (['<', 'o', 'l', '>'] :: r) = tagOk (some false) r := rfl

lemma tagOk_ul_closeL (r : List Str) :
    tagOk (some true) (['<', '/', 'u', 'l', '>'] :: r) = tagOk none r := rfl

lemma tagOk_ol_closeL (r : List Str) :
    tagOk (some false) (['<', '/', 'o', 'l', '>'] :: r) = tagOk none r := rfl

lemma mdLines_tagOk : ∀ (ls : List Str) (u o : Bool), (u && o) = false →
    tagOk (pend u o) (tagProj (mdLines u o ls)) = true := by
  intro ls
  induction ls with
  | nil =>
    intro u o h
    cases u <;> cases o
    · rfl
    · rfl
    · rfl
    · exact absurd h (by decide)
  | cons l ls ih =>
    intro u o h
    cases hU : is_ul_line l <;> cases hO : is_ol_line l <;> cases u <;> cases o <;>
      first
      | exact absurd h (by decide)
      | (simp only [mdLines, mdStep, hU, hO, Bool.not_true, Bool.not_false, Bool.and_true,
          Bool.and_false, Bool.true_and, Bool.false_and, if_true, if_false]
         simp [tagProj, pend, List.filter_append, List.filter_cons, List.filter_nil,
           filterFragOpt, filterFragOptE, listTag_ul, listTag_cul, listTag_ol, listTag_col,
           listTag_ulL, listTag_culL, listTag_olL, listTag_colL,
           tagOk_none_ul, tagOk_none_ol, tagOk_ul_close, tagOk_ol_close,
           tagOk_none_ulL, tagOk_none_olL, tagOk_ul_closeL, tagOk_ol_closeL]
         first
         | simpa [tagProj, pend] using ih false false (by decide)
         | simpa [tagProj, pend] using ih true false (by decide)
         | simpa [tagProj, pend] using ih false true (by decide))

lemma ul_not_ol (l : Str) (h : is_ul_line l = true) : is_ol_line l = false := by
  obtain ⟨r, hr⟩ := List.isPrefixOf_iff_prefix.mp h
  rw [← hr]
  rfl

lemma mdStep_ul_first (l : Str) (hU : is_ul_line l = true) :
    mdStep false false l = (["<ul>".data], true, false) := by
  have hO := ul_not_ol l hU
  simp [mdStep, hU, hO]

lemma mdStep_ul_cont (l : Str) (hU : is_ul_line l = true) :
    mdStep true false l = ([], true, false) := by
  have hO := ul_not_ol l hU
  simp [mdStep, hU, hO]

lemma mdStep_nonlist_close (l : Str) (hU : is_ul_line l = false) (hO : is_ol_line l = false) :
    mdStep true false l = (["</ul>".data], false, false) := by
  simp [mdStep, hU, hO]

lemma rstrip_ul_ne_nil (r : Str) : rstrip ('-' :: r) ≠ [] := by
  intro hnil
  unfold rstrip rstripBy at hnil
  rw [List.reverse_eq_nil_iff] at hnil
  have h1 := List.dropWhile_eq_nil_iff.mp hnil
  have h2 : pyIsSpace '-' = true := h1 '-' (by simp)
  exact absurd h2 (by decide)

lemma md_core_ne_nil (line : Str) (h : line.isEmpty = false) : md_line_core line ≠ [] := by
  unfold md_line_core
  simp only [h, Bool.false_eq_true, if_false]
  repeat' split
  all_goals simp [figureHtml]

lemma md_ul_frag_nonempty (l : Str) (h : is_ul_line l = true) :
    (md_line_to_html l).isEmpty = false := by
  obtain ⟨r, hr⟩ := List.isPrefixOf_iff_prefix.mp h
  have h1 : rstrip l ≠ [] := by
    rw [← hr]
    exact rstrip_ul_ne_nil (' ' :: r)
  have h2 : (rstrip l).isEmpty = false := by
    cases hc : rstrip l with
    | nil => exact absurd hc h1
    | cons a t => rfl
  have h3 := md_core_ne_nil (rstrip l) h2
  cases hc : md_line_core (rstrip l) with
  | nil => exact absurd hc h3
  | cons a t => simp [md_line_to_html, hc]

lemma mdLines_run_aux : ∀ (us : List Str) (t : Str) (rest : List Str),
    (∀ l ∈ us, is_ul_line l = true) → is_ul_line t = false → is_ol_line t = false →
    mdLines true false (us ++ t :: rest) =
      us.map md_line_to_html ++ "</ul>".data ::
        ((if (md_line_to_html t).isEmpty then [] else [md_line_to_html t]) ++
          mdLines false false rest) := by
  intro us
  induction us with
  | nil =>
    intro t rest _ hU hO
    simp [mdLines, mdStep_nonlist_close t hU hO]
  | cons u us ih =>
    intro t rest hall hU hO
    have hu : is_ul_line u = true := hall u (by simp)
    have hfrag : (md_line_to_html u).isEmpty = false := md_ul_frag_nonempty u hu
    simp [mdLines, mdStep_ul_cont u hu, hfrag,
      ih t rest (fun l hl => hall l (by simp [hl])) hU hO]

/-- C2: first, the container tags among the assembler's output fragments
always form a well-paired stream — each opened unordered or ordered
container is closed by exactly one matching tag before any other
container opens, so containers never nest or overlap.  Second, a run of
unordered-list lines followed by a non-list line is rendered as exactly
one opening container, the fragments of the run's lines in input order,
and exactly one matching close, after which assembly continues with no
open container. -/
theorem mdLines_containers :
    (∀ lines : List Str, tagOk none (tagProj (mdLines false false lines)) = true) ∧
    (∀ (us : List Str) (t : Str) (rest : List Str), us ≠ [] →
      (∀ l ∈ us, is_ul_line l = true) → is_ul_line t = false → is_ol_line t = false →
      mdLines false false (us ++ t :: rest) =
        "<ul>".data :: (us.map md_line_to_html ++ "</ul>".data ::
          ((if (md_line_to_html t).isEmpty then [] else [md_line_to_html t]) ++
            mdLines false false rest))) := by
  constructor
  · intro lines
    simpa [pend] using mdLines_tagOk lines false false (by decide)
  · intro us t rest hne hall hU hO
    cases us with
    | nil => exact absurd rfl hne
    | cons u us =>
      have hu : is_ul_line u = true := hall u (by simp)
      have hfrag : (md_line_to_html u).isEmpty = false := md_ul_frag_nonempty u hu
      simp [mdLines, mdStep_ul_first u hu, hfrag,
        mdLines_run_aux us t rest (fun l hl => hall l (by simp [hl])) hU hO]

theorem mdLines_containers_witness :
    tagOk none (tagProj (mdLines false false ["- a".data, "1. b".data, "x".data])) = true ∧
    mdLines false false (["- a".data] ++ "x".data :: []) =
      "<ul>".data :: (["- a".data].map md_line_to_html ++ "</ul>".data ::
        ((if (md_line_to_html "x".data).isEmpty then [] else [md_line_to_html "x".data]) ++
          mdLines false false [])) :=
  ⟨mdLines_containers.1 _, mdLines_containers.2 ["- a".data] "x".data []
    (by decide) (by decide) (by decide) (by decide)⟩

lemma cardHref_infix_card (p : Post) : cardHref p.slug <:+: cardHtml p := by
  refine ⟨card1, card2 ++ (if p.date.isEmpty then "Draft".data else p.date) ++ card3 ++
    html_escape p.title ++ card4 ++ html_escape p.summary ++ card5, ?_⟩
  simp [cardHtml, List.append_assoc]

lemma cardHtml_ne_nil (p : Post) : cardHtml p ≠ [] := by
  simp [cardHtml, card1]

lemma cardHref_infix_buildIndexHtml (profile : Option Str) (posts : List (Str × Str)) (p : Post)
    (hp : p ∈ buildPosts posts) : cardHref p.slug <:+: buildIndexHtml profile posts := by
  have h1 : cardHref p.slug <:+: cardHtml p := cardHref_infix_card p
  have h2 : cardHtml p <:+: ((buildPosts posts).map cardHtml).flatten :=
    List.infix_of_mem_flatten (List.mem_map_of_mem cardHtml hp)
  have hne : (((buildPosts posts).map cardHtml).flatten).isEmpty = false := by
    cases hc : ((buildPosts posts).map cardHtml).flatten with
    | nil =>
      rw [hc] at h2
      exact absurd (List.sublist_nil.mp h2.sublist) (cardHtml_ne_nil p)
    | cons a t => rfl
  have hcards : buildCards (buildPosts posts) = ((buildPosts posts).map cardHtml).flatten := by
    unfold buildCards
    rw [hne]
    rfl
  have h3 : ((buildPosts posts).map cardHtml).flatten <:+: buildIndexHtml profile posts := by
    unfold buildIndexHtml shell_html indexBody
    rw [hcards]
    exact ⟨shell1 ++ html_escape "AI Blog Generator".data ++ shell2 ++ idx1 ++
      markdown_to_html (profile.getD "# Your Name".data) ++ idx2 ++
      (Nat.repr (buildPosts posts).length).data ++ idx3,
      idx4 ++ shell3, by simp [List.append_assoc]⟩
  exact h1.trans (h2.trans h3)

/-- C1 (amended): every build creates the output directory and a "blog"
subdirectory, writes the home page and then one page per Post into the
blog subdirectory (named by the sanitized slug), and the home page
contains, for each Post, a summary card whose link target is exactly
the slash-blog-slug-dot-html path built from that Post's slug. -/
theorem build_blog_layout (profile : Option Str) (posts : List (Str × Str)) :
    (build profile posts).dirs = ["site".data, "site/blog".data] ∧
    (build profile posts).files.map Prod.fst =
      "site/index.html".data ::
        (buildPosts posts).map
          (fun p => "site/blog/".data ++ sanitizeSlug p.slug ++ ".html".data) ∧
    (build profile posts).files.head? =
      some ("site/index.html".data, buildIndexHtml profile posts) ∧
    ∀ p ∈ buildPosts posts,
      ("/blog/".data ++ p.slug ++ ".html".data) <:+: buildIndexHtml profile posts := by
  refine ⟨rfl, ?_, rfl, ?_⟩
  · simp [build]
  · intro p hp
    have h := cardHref_infix_buildIndexHtml profile posts p hp
    simpa [cardHref] using h

theorem build_blog_layout_witness :
    ("/blog/".data ++ (mkPost "a".data "t".data).slug ++ ".html".data) <:+:
      buildIndexHtml none [("a".data, "t".data)] :=
  (build_blog_layout none [("a".data, "t".data)]).2.2.2 (mkPost "a".data "t".data) (by decide)

/-- C1 counterexample: on a concrete one-post build the created
directories are the output directory and its "blog" subdirectory — no
"posts" subdirectory is created — and the card link target for slug `a`
is `/blog/a.html`, not `/posts/a.html`. -/
theorem build_posts_dir_refuted :
    (build none [("a".data, "t".data)]).dirs = ["site".data, "site/blog".data] ∧
    "site/posts".data ∉ (build none [("a".data, "t".data)]).dirs ∧
    cardHref "a".data ≠ "/posts/a.html".data := by
  refine ⟨rfl, by decide, by decide⟩

/-- C7: the code sanitizes the slug only in the output page filename;
the summary card's link target uses the raw stem.  For the stem
`a b!` the page is written to `site/blog/ab.html` while the home page
links to `/blog/a b!.html` (with the space and the bang), so the claimed
invariant fails at the card link.  The final conjunct checks the claim's
sanitization scenario itself. -/
theorem build_slug_unsanitized_link :
    (build none [("a b!".data, "hi".data)]).files.map Prod.fst =
      ["site/index.html".data, "site/blog/ab.html".data] ∧
    cardHref "a b!".data = "/blog/a b!.html".data ∧
    cardHref (mkPost "a b!".data "hi".data).slug <:+:
      buildIndexHtml none [("a b!".data, "hi".data)] ∧
    sanitizeSlug "2024-01-01 My Post!".data = "2024-01-01MyPost".data := by
  refine ⟨by decide, by decide, ?_, by decide⟩
  exact cardHref_infix_buildIndexHtml none [("a b!".data, "hi".data)]
    (mkPost "a b!".data "hi".data) (by decide)
